import Mathlib

/-!
Shallow embedding of the rust-order-service HTTP handlers found in
src/services/rust-order-service/src/main.rs.

Modelling choices:
* Rust i32 values are modelled as Int (the modelled code performs only
  comparisons on them, never overflowing arithmetic).
* Rust f64 prices are modelled as ℚ; the source only compares a price with
  zero and multiplies it by a quantity, and both operations are mirrored
  exactly on rationals.
* A MongoDB ObjectId is a 24-character hexadecimal string.
* Each handler becomes a pure function from an environment (the outcomes of
  the collaborators: user-service call, inventory-service call, document
  store, NATS message bus) and the request payload to a handler result plus
  a trace of external effects listed in the order the source performs them.
-/

namespace OrderService

/-- A MongoDB object identifier, modelled as its 24-character hex string. -/
abbrev ObjectId := String

/-- The Order model persisted to the document store (struct Order). -/
structure Order where
  id : Option ObjectId
  user_id : Int
  product_name : String
  quantity : Int
  total_price : ℚ
  status : String
  created_at : Nat
deriving Repr, DecidableEq

/-- User model returned by the user-service (struct User). -/
structure User where
  id : Int
  name : String
  email : String
deriving Repr, DecidableEq

/-- Inventory item returned by the inventory-service (struct InventoryItem);
the price field is optional in the JSON and defaults to 0. -/
structure InventoryItem where
  id : Int
  product_name : String
  sku : String
  quantity : Int
  location : String
  price : ℚ
deriving Repr, DecidableEq

/-- Body of POST /api/orders (struct CreateOrderRequestSimple). -/
structure CreateOrderRequestSimple where
  user_id : Int
  product_name : String
  quantity : Int
  price_per_unit : ℚ
deriving Repr, DecidableEq

/-- Body of POST /api/orders/validated (struct CreateOrderRequest). -/
structure CreateOrderRequest where
  user_id : Int
  product_id : String
  quantity : Int
deriving Repr, DecidableEq

/-- The error taxonomy (enum AppError). -/
inductive AppError where
  | DatabaseError (msg : String)
  | NotFound
  | InternalError (msg : String)
  | HttpError (msg : String)
  | UserNotFound (user_id : Int)
  | InsufficientInventory (product : String) (requested : Int) (available : Int)
deriving Repr, DecidableEq

/-- impl IntoResponse for AppError: the HTTP status code and the
client-visible error message produced for each error variant. -/
def AppError.into_response : AppError → Nat × String
  | .DatabaseError _ => (500, "Database error")
  | .NotFound => (404, "Order not found")
  | .InternalError _ => (500, "Internal server error")
  | .HttpError _ => (500, "HTTP request failed")
  | .UserNotFound user_id => (400, "User " ++ toString user_id ++ " not found")
  | .InsufficientInventory product requested available =>
      (400, "Insufficient inventory for " ++ product ++ ": requested " ++
        toString requested ++ ", available " ++ toString available)

/-- Outcome of one outbound HTTP call followed by a JSON decode, as the
source observes it: the send itself can fail (reqwest error), the response
status can be non-success, or the body can fail to parse; only a successful
parse yields a value. -/
inductive SvcResponse (α : Type) where
  | sendFail (msg : String)
  | nonSuccess
  | parseFail (msg : String)
  | ok (val : α)
deriving Repr, DecidableEq

/-- Whether the call produced a decoded value. -/
def SvcResponse.isOk : SvcResponse α → Bool
  | .ok _ => true
  | _ => false

/-- Outcome of a document-store insert_one call. -/
inductive DbResult where
  | ok (oid : ObjectId)
  | fail (msg : String)
deriving Repr, DecidableEq

/-- Outcome of a document-store find_one call. -/
inductive DbFindResult where
  | fail (msg : String)
  | notFound
  | found (o : Order)
deriving Repr, DecidableEq

/-- Externally visible effects a handler performs, in program order. -/
inductive Effect where
  | callUser
  | callInventory
  | dbInsert (o : Order)
  | dbFind (oid : ObjectId)
  | natsPublish
  | incOrdersCreated
  | incRequestsTotal
  | incOrdersQueried
deriving Repr, DecidableEq

/-- Whether a trace contains a store insert. -/
def hasInsert (l : List Effect) : Bool :=
  l.any fun e => match e with
    | .dbInsert _ => true
    | _ => false

/-- Whether a trace contains a NATS publish attempt. -/
def hasPublish (l : List Effect) : Bool :=
  l.any fun e => e = .natsPublish

/-- A handler outcome: Result of (StatusCode, Json of body) or AppError. -/
inductive HandlerResult (α : Type) where
  | success (status : Nat) (body : α)
  | failure (e : AppError)
deriving Repr, DecidableEq

/-- The publish effects of the if-let on the NATS client: one publish
attempt when a client is present (whether or not the call then fails, the
failure being logged and swallowed), none when it is absent. -/
def pubEffectsOf (nats : Option Bool) : List Effect :=
  match nats with
  | some _ => [.natsPublish]
  | none => []

/-- Number of occurrences of one effect in a trace. -/
def countEff (a : Effect) : List Effect → Nat
  | [] => 0
  | e :: l => (if e = a then 1 else 0) + countEff a l

/-- Whether the handler succeeded. -/
def HandlerResult.isSuccess : HandlerResult α → Bool
  | .success _ _ => true
  | .failure _ => false

/-- Environment of the simple create handler: the insert outcome, the NATS
client state (none when absent; some b where b tells whether the publish
call succeeds), and the current time. -/
structure SimpleEnv where
  insertResult : DbResult
  nats : Option Bool
  now : Nat
deriving Repr, DecidableEq

/-- The order the simple path builds before the insert (let order = Order
{...} in fn create_order): caller-supplied fields, total price = unit price
times quantity, status pending, no id yet. -/
def simpleOrderOf (now : Nat) (payload : CreateOrderRequestSimple) : Order :=
  { id := none
    user_id := payload.user_id
    product_name := payload.product_name
    quantity := payload.quantity
    total_price := payload.price_per_unit * (payload.quantity : ℚ)
    status := "pending"
    created_at := now }

/-- POST /api/orders handler (fn create_order): builds the order from the
caller-supplied fields, inserts it, publishes best-effort, bumps counters. -/
def create_order (env : SimpleEnv) (payload : CreateOrderRequestSimple) :
    HandlerResult Order × List Effect :=
  let order : Order := simpleOrderOf env.now payload
  match env.insertResult with
  | .fail e => (.failure (.DatabaseError e), [.dbInsert order])
  | .ok oid =>
    let created_order := { order with id := some oid }
    (.success 201 created_order,
      [.dbInsert order] ++ pubEffectsOf env.nats ++
        [.incOrdersCreated, .incRequestsTotal])

/-- Environment of the validated create handler: outcomes of the
user-service call, the inventory-service call, the insert, the NATS client
state, and the current time. -/
structure ValidatedEnv where
  userResp : SvcResponse User
  invResp : SvcResponse InventoryItem
  insertResult : DbResult
  nats : Option Bool
  now : Nat
deriving Repr, DecidableEq

/-- The fallback unit price 999.99 used when the inventory price is not
strictly positive. -/
def fallbackPrice : ℚ := 99999 / 100

/-- The order the validated path builds before the insert (let order =
Order {...} in fn create_validated_order): user id and quantity from the
request, product name from the inventory item, unit price resolved with the
fallback policy, status pending, no id yet. -/
def pendingOrderOf (now : Nat) (payload : CreateOrderRequest)
    (item : InventoryItem) : Order :=
  { id := none
    user_id := payload.user_id
    product_name := item.product_name
    quantity := payload.quantity
    total_price := (if item.price > 0 then item.price else fallbackPrice) *
      (payload.quantity : ℚ)
    status := "pending"
    created_at := now }

/-- POST /api/orders/validated handler (fn create_validated_order):
user lookup, then product lookup, price resolution with fallback, stock
sufficiency gate, store insert, best-effort publish, counter bumps. -/
def create_validated_order (env : ValidatedEnv) (payload : CreateOrderRequest) :
    HandlerResult Order × List Effect :=
  match env.userResp with
  | .sendFail e =>
      (.failure (.HttpError ("Failed to call user-service: " ++ e)), [.callUser])
  | .nonSuccess =>
      (.failure (.UserNotFound payload.user_id), [.callUser])
  | .parseFail e =>
      (.failure (.HttpError ("Failed to parse user response: " ++ e)), [.callUser])
  | .ok _user =>
    match env.invResp with
    | .sendFail e =>
        (.failure (.HttpError ("Failed to call inventory-service: " ++ e)),
          [.callUser, .callInventory])
    | .nonSuccess =>
        (.failure (.HttpError
            ("Product \x27" ++ payload.product_id ++ "\x27 not found in inventory")),
          [.callUser, .callInventory])
    | .parseFail e =>
        (.failure (.HttpError ("Failed to parse inventory response: " ++ e)),
          [.callUser, .callInventory])
    | .ok item =>
      if item.quantity < payload.quantity then
        (.failure (.HttpError
            ("Insufficient inventory: requested " ++ toString payload.quantity ++
              ", available " ++ toString item.quantity)),
          [.callUser, .callInventory])
      else
        let order : Order := pendingOrderOf env.now payload item
        match env.insertResult with
        | .fail e =>
            (.failure (.DatabaseError e), [.callUser, .callInventory, .dbInsert order])
        | .ok oid =>
          let created_order := { order with id := some oid }
          (.success 201 created_order,
            [.callUser, .callInventory, .dbInsert order] ++ pubEffectsOf env.nats ++
              [.incOrdersCreated, .incRequestsTotal])

/-- Hex-character test used by ObjectId parsing (case-insensitive). -/
def isHexChar (c : Char) : Bool :=
  c.isDigit || (97 ≤ c.toNat && c.toNat ≤ 102) || (65 ≤ c.toNat && c.toNat ≤ 70)

/-- A string parses as an ObjectId exactly when it is 24 hex characters. -/
def validObjectId (s : String) : Bool :=
  s.length == 24 && s.data.all isHexChar

/-- Outcome of ObjectId::parse_str. -/
inductive ParseResult where
  | ok (oid : ObjectId)
  | err (msg : String)
deriving Repr, DecidableEq

/-- ObjectId::parse_str: accepts exactly a 24-character hex string. -/
def ObjectId.parse_str (s : String) : ParseResult :=
  if validObjectId s then .ok s else .err "malformed hex string"

/-- Environment of the get-by-id handler: the find_one outcome. -/
structure GetEnv where
  findResult : DbFindResult
deriving Repr, DecidableEq

/-- GET /api/orders/:id handler (fn get_order): parse the id first; only on
success query the store; 404 on miss; counters bumped on success only. -/
def get_order (env : GetEnv) (id : String) : HandlerResult Order × List Effect :=
  match ObjectId.parse_str id with
  | .err e => (.failure (.InternalError ("Invalid ID: " ++ e)), [])
  | .ok oid =>
    match env.findResult with
    | .fail e => (.failure (.DatabaseError e), [.dbFind oid])
    | .notFound => (.failure .NotFound, [.dbFind oid])
    | .found o =>
        (.success 200 o, [.dbFind oid, .incOrdersQueried, .incRequestsTotal])

/-- True when the stock-sufficiency gate rejects: the inventory call decoded
an item whose available quantity is below the requested quantity. -/
def stockInsufficient (inv : SvcResponse InventoryItem) (q : Int) : Bool :=
  match inv with
  | .ok item => item.quantity < q
  | _ => false

/-- True when some step strictly before the store insert fails: the user
call did not decode a user, or the inventory call did not decode an item,
or the stock gate rejects. -/
def preInsertFailure (env : ValidatedEnv) (payload : CreateOrderRequest) : Bool :=
  !env.userResp.isOk || !env.invResp.isOk ||
    stockInsufficient env.invResp payload.quantity

/-- The order the validated path returns to the caller on success: the
pre-insert order with the store-assigned id filled in. -/
def validatedOrderOf (env : ValidatedEnv) (payload : CreateOrderRequest)
    (item : InventoryItem) (oid : ObjectId) : Order :=
  { pendingOrderOf env.now payload item with id := some oid }


/-- A fixed well-formed ObjectId used by concrete examples. -/
def oidEx : ObjectId := "0123456789abcdef01234567"

/-- A fixed user used by concrete examples. -/
def userEx : User := { id := 1, name := "Ann", email := "ann@example.com" }

/-- Inventory item with positive price and ample stock. -/
def itemEx : InventoryItem :=
  { id := 42, product_name := "Widget", sku := "W-1", quantity := 10,
    location := "A1", price := 7 }

/-- Inventory item whose price field defaulted to zero. -/
def itemZero : InventoryItem :=
  { id := 43, product_name := "Gadget", sku := "G-1", quantity := 10,
    location := "A2", price := 0 }

/-- Inventory item with only 3 units in stock. -/
def itemC2 : InventoryItem :=
  { id := 42, product_name := "Widget", sku := "W-1", quantity := 3,
    location := "A1", price := 5 }

/-- A validated-create request for 2 units of product 42. -/
def payloadEx : CreateOrderRequest :=
  { user_id := 1, product_id := "42", quantity := 2 }

/-- A validated-create request for 5 units (more than itemC2 has). -/
def payloadC2 : CreateOrderRequest :=
  { user_id := 1, product_id := "42", quantity := 5 }

/-- A validated-create request naming an unknown product id. -/
def payloadC3 : CreateOrderRequest :=
  { user_id := 1, product_id := "nope", quantity := 1 }

/-- Fully healthy validated environment (publish call failing, which the
handler swallows). -/
def envOk : ValidatedEnv :=
  { userResp := .ok userEx, invResp := .ok itemEx,
    insertResult := .ok oidEx, nats := some false, now := 0 }

/-- Healthy validated environment whose inventory item has price zero. -/
def envZero : ValidatedEnv :=
  { userResp := .ok userEx, invResp := .ok itemZero,
    insertResult := .ok oidEx, nats := some false, now := 0 }

/-- Validated environment where the user-service answers non-success. -/
def envUserMissing : ValidatedEnv :=
  { userResp := .nonSuccess, invResp := .ok itemEx,
    insertResult := .ok oidEx, nats := some true, now := 0 }

/-- Validated environment for the insufficient-stock example. -/
def envC2 : ValidatedEnv :=
  { userResp := .ok userEx, invResp := .ok itemC2,
    insertResult := .ok oidEx, nats := some true, now := 0 }

/-- Validated environment where the inventory service answers non-success. -/
def envC3 : ValidatedEnv :=
  { userResp := .ok userEx, invResp := .nonSuccess,
    insertResult := .ok oidEx, nats := some true, now := 0 }

/-- Simple-create request with a negative quantity; nothing validates it. -/
def payloadC7 : CreateOrderRequestSimple :=
  { user_id := 1, product_name := "x", quantity := -1, price_per_unit := 10 }

/-- Healthy store, no bus, for the negative-quantity example. -/
def envC7 : SimpleEnv := { insertResult := .ok oidEx, nats := none, now := 0 }

/-- The order the negative-quantity example hands to the insert. -/
def orderC7 : Order :=
  { id := none, user_id := 1, product_name := "x", quantity := -1,
    total_price := -10, status := "pending", created_at := 0 }

/-- A well-formed simple-create request used by witnesses. -/
def payloadS : CreateOrderRequestSimple :=
  { user_id := 1, product_name := "Thing", quantity := 2, price_per_unit := 3 }

/-- Healthy store with a present bus, for simple-create witnesses. -/
def envS : SimpleEnv := { insertResult := .ok oidEx, nats := some false, now := 0 }

/-- Get-by-id environment whose store lookup would miss. -/
def envGet : GetEnv := { findResult := .notFound }

/-- countEff distributes over concatenation. -/
theorem countEff_append (a : Effect) (l1 l2 : List Effect) :
    countEff a (l1 ++ l2) = countEff a l1 + countEff a l2 := by
  induction l1 with
  | nil => simp [countEff]
  | cons e l ih => simp [countEff, ih, Nat.add_assoc]

/-- The publish effects never contain the orders-created bump. -/
theorem countEff_pub_created (n : Option Bool) :
    countEff .incOrdersCreated (pubEffectsOf n) = 0 := by
  cases n <;> rfl

/-- The publish effects never contain the requests-total bump. -/
theorem countEff_pub_requests (n : Option Bool) :
    countEff .incRequestsTotal (pubEffectsOf n) = 0 := by
  cases n <;> rfl

/-- The publish effects never contain the orders-queried bump. -/
theorem countEff_pub_queried (n : Option Bool) :
    countEff .incOrdersQueried (pubEffectsOf n) = 0 := by
  cases n <;> rfl

/-- Anything inside the publish effects is the publish effect. -/
theorem mem_pubEffectsOf (e : Effect) (n : Option Bool)
    (h : e ∈ pubEffectsOf n) : e = .natsPublish := by
  cases n with
  | none => simp [pubEffectsOf] at h
  | some b => simp [pubEffectsOf] at h; simp [h]

/-- Full behavior of the simple create: a store failure yields the database
error after only the insert attempt; otherwise the created order is
returned and the trace is insert, optional publish, counter bumps. -/
theorem create_order_enum (env : SimpleEnv) (payload : CreateOrderRequestSimple) :
    (∃ e, env.insertResult = .fail e ∧
      create_order env payload =
        (.failure (.DatabaseError e), [.dbInsert (simpleOrderOf env.now payload)])) ∨
    (∃ oid, env.insertResult = .ok oid ∧
      create_order env payload =
        (.success 201 { simpleOrderOf env.now payload with id := some oid },
          [.dbInsert (simpleOrderOf env.now payload)] ++ pubEffectsOf env.nats ++
            [.incOrdersCreated, .incRequestsTotal])) := by
  obtain ⟨ins, nats, now⟩ := env
  cases ins with
  | fail e => exact Or.inl ⟨e, rfl, rfl⟩
  | ok oid => exact Or.inr ⟨oid, rfl, rfl⟩

/-- Full behavior of the validated create, one disjunct per control path of
the source: the three user-call failures, the three inventory-call
failures, the stock gate, and the insert outcomes. -/
theorem create_validated_order_enum (env : ValidatedEnv) (payload : CreateOrderRequest) :
    (∃ e, env.userResp = .sendFail e ∧
      create_validated_order env payload =
        (.failure (.HttpError ("Failed to call user-service: " ++ e)), [.callUser])) ∨
    (env.userResp = .nonSuccess ∧
      create_validated_order env payload =
        (.failure (.UserNotFound payload.user_id), [.callUser])) ∨
    (∃ e, env.userResp = .parseFail e ∧
      create_validated_order env payload =
        (.failure (.HttpError ("Failed to parse user response: " ++ e)), [.callUser])) ∨
    ((∃ u, env.userResp = .ok u) ∧
      ((∃ e, env.invResp = .sendFail e ∧
        create_validated_order env payload =
          (.failure (.HttpError ("Failed to call inventory-service: " ++ e)),
            [.callUser, .callInventory])) ∨
       (env.invResp = .nonSuccess ∧
        create_validated_order env payload =
          (.failure (.HttpError
              ("Product \x27" ++ payload.product_id ++ "\x27 not found in inventory")),
            [.callUser, .callInventory])) ∨
       (∃ e, env.invResp = .parseFail e ∧
        create_validated_order env payload =
          (.failure (.HttpError ("Failed to parse inventory response: " ++ e)),
            [.callUser, .callInventory])) ∨
       (∃ item, env.invResp = .ok item ∧
         ((item.quantity < payload.quantity ∧
           create_validated_order env payload =
             (.failure (.HttpError
                 ("Insufficient inventory: requested " ++ toString payload.quantity ++
                   ", available " ++ toString item.quantity)),
               [.callUser, .callInventory])) ∨
          (¬ item.quantity < payload.quantity ∧
           ((∃ e, env.insertResult = .fail e ∧
             create_validated_order env payload =
               (.failure (.DatabaseError e),
                 [.callUser, .callInventory,
                   .dbInsert (pendingOrderOf env.now payload item)])) ∨
            (∃ oid, env.insertResult = .ok oid ∧
             create_validated_order env payload =
               (.success 201 (validatedOrderOf env payload item oid),
                 [.callUser, .callInventory,
                   .dbInsert (pendingOrderOf env.now payload item)] ++
                   pubEffectsOf env.nats ++
                   [.incOrdersCreated, .incRequestsTotal])))))))) := by
  obtain ⟨u, inv, ins, nats, now⟩ := env
  cases u with
  | sendFail e => exact Or.inl ⟨e, rfl, rfl⟩
  | nonSuccess => exact Or.inr (Or.inl ⟨rfl, rfl⟩)
  | parseFail e => exact Or.inr (Or.inr (Or.inl ⟨e, rfl, rfl⟩))
  | ok user =>
    refine Or.inr (Or.inr (Or.inr ⟨⟨user, rfl⟩, ?_⟩))
    cases inv with
    | sendFail e => exact Or.inl ⟨e, rfl, rfl⟩
    | nonSuccess => exact Or.inr (Or.inl ⟨rfl, rfl⟩)
    | parseFail e => exact Or.inr (Or.inr (Or.inl ⟨e, rfl, rfl⟩))
    | ok item =>
      refine Or.inr (Or.inr (Or.inr ⟨item, rfl, ?_⟩))
      by_cases hq : item.quantity < payload.quantity
      · refine Or.inl ⟨hq, ?_⟩
        simp only [create_validated_order]
        rw [if_pos hq]
      · refine Or.inr ⟨hq, ?_⟩
        cases ins with
        | fail e =>
          refine Or.inl ⟨e, rfl, ?_⟩
          simp only [create_validated_order]
          rw [if_neg hq]
        | ok oid =>
          refine Or.inr ⟨oid, rfl, ?_⟩
          simp only [create_validated_order]
          rw [if_neg hq]
          rfl

/-- Whether the validated create succeeds does not depend on the NATS
client state. -/
theorem cvo_isSuccess_nats (env : ValidatedEnv) (payload : CreateOrderRequest)
    (b : Option Bool) :
    (create_validated_order { env with nats := b } payload).1.isSuccess =
      (create_validated_order env payload).1.isSuccess := by
  obtain ⟨u, inv, ins, nats, now⟩ := env
  cases u with
  | sendFail e => rfl
  | nonSuccess => rfl
  | parseFail e => rfl
  | ok user =>
    cases inv with
    | sendFail e => rfl
    | nonSuccess => rfl
    | parseFail e => rfl
    | ok item =>
      by_cases hq : item.quantity < payload.quantity
      · simp only [create_validated_order, if_pos hq]
      · simp only [create_validated_order, if_neg hq]
        cases ins <;> rfl

/-- Counter discipline of the simple create: each of the two counters is
bumped exactly once on success and never on failure, the query counter is
never bumped, success requires a successful insert, and the bumps sit after
the insert in the trace. -/
theorem create_order_counters (env : SimpleEnv) (payload : CreateOrderRequestSimple) :
    countEff .incOrdersCreated (create_order env payload).2 =
      (if (create_order env payload).1.isSuccess then 1 else 0) ∧
    countEff .incRequestsTotal (create_order env payload).2 =
      (if (create_order env payload).1.isSuccess then 1 else 0) ∧
    countEff .incOrdersQueried (create_order env payload).2 = 0 ∧
    ((create_order env payload).1.isSuccess = true →
      ∃ oid, env.insertResult = .ok oid) ∧
    ((create_order env payload).1.isSuccess = true →
      ∃ o mid, (create_order env payload).2 =
        [Effect.dbInsert o] ++ mid ++ [.incOrdersCreated, .incRequestsTotal]) := by
  rcases create_order_enum env payload with ⟨e, hins, hco⟩ | ⟨oid, hins, hco⟩ <;> rw [hco]
  · exact ⟨rfl, rfl, rfl,
      fun hsuc => by simp [HandlerResult.isSuccess] at hsuc,
      fun hsuc => by simp [HandlerResult.isSuccess] at hsuc⟩
  · refine ⟨?_, ?_, ?_, fun _ => ⟨oid, hins⟩,
      fun _ => ⟨simpleOrderOf env.now payload, pubEffectsOf env.nats, rfl⟩⟩ <;>
    simp [countEff_append, countEff, countEff_pub_created, countEff_pub_requests,
      countEff_pub_queried, HandlerResult.isSuccess]

/-- Counter discipline of the validated create, mirroring
create_order_counters. -/
theorem create_validated_order_counters (env : ValidatedEnv)
    (payload : CreateOrderRequest) :
    countEff .incOrdersCreated (create_validated_order env payload).2 =
      (if (create_validated_order env payload).1.isSuccess then 1 else 0) ∧
    countEff .incRequestsTotal (create_validated_order env payload).2 =
      (if (create_validated_order env payload).1.isSuccess then 1 else 0) ∧
    countEff .incOrdersQueried (create_validated_order env payload).2 = 0 ∧
    ((create_validated_order env payload).1.isSuccess = true →
      ∃ oid, env.insertResult = .ok oid) ∧
    ((create_validated_order env payload).1.isSuccess = true →
      ∃ o mid, (create_validated_order env payload).2 =
        [.callUser, .callInventory, Effect.dbInsert o] ++ mid ++
          [.incOrdersCreated, .incRequestsTotal]) := by
  rcases create_validated_order_enum env payload with
    ⟨e, hu, hco⟩ | ⟨hu, hco⟩ | ⟨e, hu, hco⟩ | ⟨⟨u, hu⟩, h4⟩
  · rw [hco]
    exact ⟨rfl, rfl, rfl, fun hsuc => by simp [HandlerResult.isSuccess] at hsuc,
      fun hsuc => by simp [HandlerResult.isSuccess] at hsuc⟩
  · rw [hco]
    exact ⟨rfl, rfl, rfl, fun hsuc => by simp [HandlerResult.isSuccess] at hsuc,
      fun hsuc => by simp [HandlerResult.isSuccess] at hsuc⟩
  · rw [hco]
    exact ⟨rfl, rfl, rfl, fun hsuc => by simp [HandlerResult.isSuccess] at hsuc,
      fun hsuc => by simp [HandlerResult.isSuccess] at hsuc⟩
  · rcases h4 with ⟨e, hi, hco⟩ | ⟨hi, hco⟩ | ⟨e, hi, hco⟩ | ⟨item, hi, h8⟩
    · rw [hco]
      exact ⟨rfl, rfl, rfl, fun hsuc => by simp [HandlerResult.isSuccess] at hsuc,
        fun hsuc => by simp [HandlerResult.isSuccess] at hsuc⟩
    · rw [hco]
      exact ⟨rfl, rfl, rfl, fun hsuc => by simp [HandlerResult.isSuccess] at hsuc,
        fun hsuc => by simp [HandlerResult.isSuccess] at hsuc⟩
    · rw [hco]
      exact ⟨rfl, rfl, rfl, fun hsuc => by simp [HandlerResult.isSuccess] at hsuc,
        fun hsuc => by simp [HandlerResult.isSuccess] at hsuc⟩
    · rcases h8 with ⟨hq, hco⟩ | ⟨hq, ⟨e, hins, hco⟩ | ⟨oid, hins, hco⟩⟩
      · rw [hco]
        exact ⟨rfl, rfl, rfl, fun hsuc => by simp [HandlerResult.isSuccess] at hsuc,
          fun hsuc => by simp [HandlerResult.isSuccess] at hsuc⟩
      · rw [hco]
        exact ⟨rfl, rfl, rfl, fun hsuc => by simp [HandlerResult.isSuccess] at hsuc,
          fun hsuc => by simp [HandlerResult.isSuccess] at hsuc⟩
      · rw [hco]
        refine ⟨?_, ?_, ?_, fun _ => ⟨oid, hins⟩,
          fun _ => ⟨pendingOrderOf env.now payload item, pubEffectsOf env.nats, rfl⟩⟩ <;>
        simp [countEff_append, countEff, countEff_pub_created, countEff_pub_requests,
          countEff_pub_queried, HandlerResult.isSuccess]

/-- C1: in the validated create the effects happen in the fixed order user
lookup, inventory lookup, store insert, event publish, counter bumps, and a
failure at any step before the insert (user lookup, product lookup, stock
gate) produces an error with neither an insert nor a publish in the trace. -/
theorem validated_gate_order_and_short_circuit (env : ValidatedEnv)
    (payload : CreateOrderRequest) :
    (preInsertFailure env payload = true →
      (create_validated_order env payload).1.isSuccess = false ∧
      hasInsert (create_validated_order env payload).2 = false ∧
      hasPublish (create_validated_order env payload).2 = false) ∧
    ((create_validated_order env payload).2 = [.callUser] ∨
     (create_validated_order env payload).2 = [.callUser, .callInventory] ∨
     (∃ o, (create_validated_order env payload).2 =
        [.callUser, .callInventory, .dbInsert o]) ∨
     (∃ o, (create_validated_order env payload).2 =
        [.callUser, .callInventory, .dbInsert o,
          .incOrdersCreated, .incRequestsTotal]) ∨
     (∃ o, (create_validated_order env payload).2 =
        [.callUser, .callInventory, .dbInsert o, .natsPublish,
          .incOrdersCreated, .incRequestsTotal])) := by
  rcases create_validated_order_enum env payload with
    ⟨e, hu, hco⟩ | ⟨hu, hco⟩ | ⟨e, hu, hco⟩ | ⟨⟨u, hu⟩, h4⟩
  · rw [hco]; exact ⟨fun _ => ⟨rfl, rfl, rfl⟩, Or.inl rfl⟩
  · rw [hco]; exact ⟨fun _ => ⟨rfl, rfl, rfl⟩, Or.inl rfl⟩
  · rw [hco]; exact ⟨fun _ => ⟨rfl, rfl, rfl⟩, Or.inl rfl⟩
  · rcases h4 with ⟨e, hi, hco⟩ | ⟨hi, hco⟩ | ⟨e, hi, hco⟩ | ⟨item, hi, h8⟩
    · rw [hco]; exact ⟨fun _ => ⟨rfl, rfl, rfl⟩, Or.inr (Or.inl rfl)⟩
    · rw [hco]; exact ⟨fun _ => ⟨rfl, rfl, rfl⟩, Or.inr (Or.inl rfl)⟩
    · rw [hco]; exact ⟨fun _ => ⟨rfl, rfl, rfl⟩, Or.inr (Or.inl rfl)⟩
    · rcases h8 with ⟨hq, hco⟩ | ⟨hq, ⟨e, hins, hco⟩ | ⟨oid, hins, hco⟩⟩
      · rw [hco]; exact ⟨fun _ => ⟨rfl, rfl, rfl⟩, Or.inr (Or.inl rfl)⟩
      · rw [hco]
        refine ⟨fun hpre => ?_, Or.inr (Or.inr (Or.inl ⟨_, rfl⟩))⟩
        exfalso
        simp [preInsertFailure, SvcResponse.isOk, stockInsufficient, hu, hi] at hpre
        exact hq hpre
      · refine ⟨fun hpre => ?_, ?_⟩
        · exfalso
          simp [preInsertFailure, SvcResponse.isOk, stockInsufficient, hu, hi] at hpre
          exact hq hpre
        · rw [hco]
          cases hn : env.nats with
          | none =>
            refine Or.inr (Or.inr (Or.inr (Or.inl
              ⟨pendingOrderOf env.now payload item, ?_⟩)))
            simp [pubEffectsOf]
          | some b =>
            refine Or.inr (Or.inr (Or.inr (Or.inr
              ⟨pendingOrderOf env.now payload item, ?_⟩)))
            simp [pubEffectsOf]

/-- C1 witness: a concrete run whose user lookup fails is rejected with
neither an insert nor a publish. -/
theorem validated_gate_order_witness :
    preInsertFailure envUserMissing payloadEx = true ∧
    ((create_validated_order envUserMissing payloadEx).1.isSuccess = false ∧
      hasInsert (create_validated_order envUserMissing payloadEx).2 = false ∧
      hasPublish (create_validated_order envUserMissing payloadEx).2 = false) :=
  ⟨by decide,
    (validated_gate_order_and_short_circuit envUserMissing payloadEx).1 (by decide)⟩

/-- C2: with the user found and the product found holding 3 units against a
request for 5, the handler fails with HttpError (not InsufficientInventory),
whose response is 500 with a generic body hiding the numbers, while the
never-constructed InsufficientInventory variant would have produced the
documented 400 with the exact numbers; no order is persisted and nothing is
published. -/
theorem insufficient_stock_uses_HttpError_not_400 :
    (create_validated_order envC2 payloadC2).1 =
      .failure (.HttpError "Insufficient inventory: requested 5, available 3") ∧
    AppError.into_response
        (.HttpError "Insufficient inventory: requested 5, available 3") =
      (500, "HTTP request failed") ∧
    hasInsert (create_validated_order envC2 payloadC2).2 = false ∧
    hasPublish (create_validated_order envC2 payloadC2).2 = false ∧
    AppError.into_response (.InsufficientInventory "Widget" 5 3) =
      (400, "Insufficient inventory for Widget: requested 5, available 3") := by
  decide

/-- C3 counterexample: with the user found and the inventory service
answering non-success, the handler fails with HttpError, whose HTTP status
is 500 and not 400 as claimed. -/
theorem product_not_found_counterexample :
    (create_validated_order envC3 payloadC3).1 =
      .failure (.HttpError "Product \x27nope\x27 not found in inventory") ∧
    (AppError.into_response
        (.HttpError "Product \x27nope\x27 not found in inventory")).1 = 500 ∧
    ¬ (AppError.into_response
        (.HttpError "Product \x27nope\x27 not found in inventory")).1 = 400 := by
  decide

/-- C3 (amended): when the user lookup succeeds and the inventory service
answers a non-success status, the operation fails with an HttpError naming
the product, the response status is 500 (not 400), and no order is
persisted and no event is published. -/
theorem product_not_found_yields_500 (env : ValidatedEnv)
    (payload : CreateOrderRequest)
    (hu : env.userResp.isOk = true) (hi : env.invResp = .nonSuccess) :
    (create_validated_order env payload).1 =
      .failure (.HttpError
        ("Product \x27" ++ payload.product_id ++ "\x27 not found in inventory")) ∧
    (AppError.into_response (.HttpError
        ("Product \x27" ++ payload.product_id ++ "\x27 not found in inventory"))).1 =
      500 ∧
    (create_validated_order env payload).2 = [.callUser, .callInventory] := by
  obtain ⟨u, inv, ins, nats, now⟩ := env
  cases u with
  | sendFail e => simp [SvcResponse.isOk] at hu
  | nonSuccess => simp [SvcResponse.isOk] at hu
  | parseFail e => simp [SvcResponse.isOk] at hu
  | ok user =>
    cases inv with
    | nonSuccess => exact ⟨rfl, rfl, rfl⟩
    | sendFail e => simp at hi
    | parseFail e => simp at hi
    | ok item => simp at hi

/-- C3 witness: the concrete unknown-product run. -/
theorem product_not_found_yields_500_witness :
    envC3.userResp.isOk = true ∧ envC3.invResp = .nonSuccess ∧
    ((create_validated_order envC3 payloadC3).1 =
        .failure (.HttpError
          ("Product \x27" ++ payloadC3.product_id ++ "\x27 not found in inventory")) ∧
      (AppError.into_response (.HttpError
          ("Product \x27" ++ payloadC3.product_id ++ "\x27 not found in inventory"))).1 =
        500 ∧
      (create_validated_order envC3 payloadC3).2 = [.callUser, .callInventory]) :=
  ⟨by decide, rfl, product_not_found_yields_500 envC3 payloadC3 (by decide) rfl⟩

/-- C4: when pricing is reached and the insert succeeds, the response is
201 with the persisted order, whose product name comes from the inventory
item and whose total price is the resolved unit price (the item price when
strictly positive, otherwise the 999.99 fallback) times the requested
quantity. -/
theorem validated_pricing_fallback_and_total (env : ValidatedEnv)
    (payload : CreateOrderRequest) (item : InventoryItem) (oid : ObjectId)
    (hu : env.userResp.isOk = true) (hi : env.invResp = .ok item)
    (hq : ¬ item.quantity < payload.quantity) (hins : env.insertResult = .ok oid) :
    (create_validated_order env payload).1 =
      .success 201 (validatedOrderOf env payload item oid) ∧
    (validatedOrderOf env payload item oid).product_name = item.product_name ∧
    (validatedOrderOf env payload item oid).quantity = payload.quantity ∧
    (validatedOrderOf env payload item oid).total_price =
      (if item.price > 0 then item.price else fallbackPrice) *
        (payload.quantity : ℚ) := by
  refine ⟨?_, rfl, rfl, rfl⟩
  obtain ⟨u, inv, ins, nats, now⟩ := env
  cases u with
  | sendFail e => simp [SvcResponse.isOk] at hu
  | nonSuccess => simp [SvcResponse.isOk] at hu
  | parseFail e => simp [SvcResponse.isOk] at hu
  | ok user =>
    cases inv with
    | sendFail e => simp at hi
    | nonSuccess => simp at hi
    | parseFail e => simp at hi
    | ok item2 =>
      have hitem : item2 = item := by simpa using hi
      subst hitem
      cases ins with
      | fail e => simp at hins
      | ok oid2 =>
        have hoid : oid2 = oid := by simpa using hins
        subst hoid
        simp only [create_validated_order]
        rw [if_neg hq]
        rfl

/-- C4 witness: a concrete run whose item price defaulted to zero, showing
the fallback price in the persisted total. -/
theorem validated_pricing_witness :
    envZero.userResp.isOk = true ∧ envZero.invResp = .ok itemZero ∧
    ¬ itemZero.quantity < payloadEx.quantity ∧
    envZero.insertResult = .ok oidEx ∧
    ((create_validated_order envZero payloadEx).1 =
        .success 201 (validatedOrderOf envZero payloadEx itemZero oidEx) ∧
      (validatedOrderOf envZero payloadEx itemZero oidEx).product_name =
        itemZero.product_name ∧
      (validatedOrderOf envZero payloadEx itemZero oidEx).quantity =
        payloadEx.quantity ∧
      (validatedOrderOf envZero payloadEx itemZero oidEx).total_price =
        (if itemZero.price > 0 then itemZero.price else fallbackPrice) *
          (payloadEx.quantity : ℚ)) :=
  ⟨by decide, rfl, by decide, rfl,
    validated_pricing_fallback_and_total envZero payloadEx itemZero oidEx
      (by decide) rfl (by decide) rfl⟩

/-- C5: once all steps through the insert succeed, the response is 201 with
the persisted order for every publisher state - absent (none), present but
failing (some false), or succeeding (some true). -/
theorem publish_outcome_does_not_change_result (env : ValidatedEnv)
    (payload : CreateOrderRequest) (item : InventoryItem) (oid : ObjectId)
    (hu : env.userResp.isOk = true) (hi : env.invResp = .ok item)
    (hq : ¬ item.quantity < payload.quantity) (hins : env.insertResult = .ok oid)
    (b : Option Bool) :
    (create_validated_order { env with nats := b } payload).1 =
      .success 201 (validatedOrderOf env payload item oid) := by
  obtain ⟨u, inv, ins, nats, now⟩ := env
  cases u with
  | sendFail e => simp [SvcResponse.isOk] at hu
  | nonSuccess => simp [SvcResponse.isOk] at hu
  | parseFail e => simp [SvcResponse.isOk] at hu
  | ok user =>
    cases inv with
    | sendFail e => simp at hi
    | nonSuccess => simp at hi
    | parseFail e => simp at hi
    | ok item2 =>
      have hitem : item2 = item := by simpa using hi
      subst hitem
      cases ins with
      | fail e => simp at hins
      | ok oid2 =>
        have hoid : oid2 = oid := by simpa using hins
        subst hoid
        simp only [create_validated_order]
        rw [if_neg hq]
        rfl

/-- C5 witness: the concrete healthy run with a failing publish call. -/
theorem publish_outcome_witness :
    envOk.userResp.isOk = true ∧ envOk.invResp = .ok itemEx ∧
    ¬ itemEx.quantity < payloadEx.quantity ∧ envOk.insertResult = .ok oidEx ∧
    (create_validated_order { envOk with nats := some false } payloadEx).1 =
      .success 201 (validatedOrderOf envOk payloadEx itemEx oidEx) :=
  ⟨by decide, rfl, by decide, rfl,
    publish_outcome_does_not_change_result envOk payloadEx itemEx oidEx
      (by decide) rfl (by decide) rfl (some false)⟩

/-- C6: a non-success status from the user-service makes the operation fail
with UserNotFound carrying the requested user id, mapped to a 400 response
with the exact message, and the trace is only the user call - nothing
written, nothing published. -/
theorem user_not_found_rejected (env : ValidatedEnv) (payload : CreateOrderRequest)
    (h : env.userResp = .nonSuccess) :
    (create_validated_order env payload).1 =
      .failure (.UserNotFound payload.user_id) ∧
    AppError.into_response (.UserNotFound payload.user_id) =
      (400, "User " ++ toString payload.user_id ++ " not found") ∧
    (create_validated_order env payload).2 = [.callUser] := by
  obtain ⟨u, inv, ins, nats, now⟩ := env
  cases u with
  | nonSuccess => exact ⟨rfl, rfl, rfl⟩
  | sendFail e => simp at h
  | parseFail e => simp at h
  | ok user => simp at h

/-- C6 witness: the concrete unknown-user run. -/
theorem user_not_found_rejected_witness :
    envUserMissing.userResp = .nonSuccess ∧
    ((create_validated_order envUserMissing payloadEx).1 =
        .failure (.UserNotFound payloadEx.user_id) ∧
      AppError.into_response (.UserNotFound payloadEx.user_id) =
        (400, "User " ++ toString payloadEx.user_id ++ " not found") ∧
      (create_validated_order envUserMissing payloadEx).2 = [.callUser]) :=
  ⟨rfl, user_not_found_rejected envUserMissing payloadEx rfl⟩

/-- C7 counterexample: the simple create persists an order whose quantity
is -1 (not strictly positive) and whose total price is -10 (negative),
because neither create path validates the requested quantity. -/
theorem persisted_order_positivity_counterexample :
    (create_order envC7 payloadC7).1.isSuccess = true ∧
    (create_order envC7 payloadC7).2 =
      [Effect.dbInsert orderC7, .incOrdersCreated, .incRequestsTotal] ∧
    ¬ 0 < orderC7.quantity ∧ orderC7.total_price < 0 := by
  refine ⟨rfl, ?_, by decide, by norm_num [orderC7]⟩
  simp only [create_order, envC7, payloadC7, orderC7, simpleOrderOf, pubEffectsOf]
  norm_num [Order.mk.injEq]

/-- C7 (amended): every order either create path hands to the store insert
has total price equal to the resolved unit price times the requested
quantity (simple path: the caller-supplied unit price; validated path: the
inventory price with the 999.99 fallback), but the quantity is copied from
the request unvalidated, so it need not be positive and the total need not
be non-negative. -/
theorem persisted_total_is_unit_price_times_quantity
    (envS : SimpleEnv) (pS : CreateOrderRequestSimple)
    (envV : ValidatedEnv) (pV : CreateOrderRequest) (o o2 : Order)
    (h1 : Effect.dbInsert o ∈ (create_order envS pS).2)
    (h2 : Effect.dbInsert o2 ∈ (create_validated_order envV pV).2) :
    (o.quantity = pS.quantity ∧
      o.total_price = pS.price_per_unit * (pS.quantity : ℚ)) ∧
    (o2.quantity = pV.quantity ∧ ∃ item, envV.invResp = .ok item ∧
      o2.total_price =
        (if item.price > 0 then item.price else fallbackPrice) *
          (pV.quantity : ℚ)) := by
  constructor
  · rcases create_order_enum envS pS with ⟨e, hins, hco⟩ | ⟨oid, hins, hco⟩ <;>
      rw [hco] at h1
    · simp at h1
      subst h1
      exact ⟨rfl, rfl⟩
    · simp at h1
      rcases h1 with h1 | h1
      · subst h1
        exact ⟨rfl, rfl⟩
      · exact absurd (mem_pubEffectsOf _ _ h1) (by simp)
  · rcases create_validated_order_enum envV pV with
      ⟨e, hu, hco⟩ | ⟨hu, hco⟩ | ⟨e, hu, hco⟩ | ⟨⟨u, hu⟩, h4⟩
    · rw [hco] at h2; simp at h2
    · rw [hco] at h2; simp at h2
    · rw [hco] at h2; simp at h2
    · rcases h4 with ⟨e, hi, hco⟩ | ⟨hi, hco⟩ | ⟨e, hi, hco⟩ | ⟨item, hi, h8⟩
      · rw [hco] at h2; simp at h2
      · rw [hco] at h2; simp at h2
      · rw [hco] at h2; simp at h2
      · rcases h8 with ⟨hq, hco⟩ | ⟨hq, ⟨e, hins, hco⟩ | ⟨oid, hins, hco⟩⟩
        · rw [hco] at h2; simp at h2
        · rw [hco] at h2
          simp at h2
          subst h2
          exact ⟨rfl, item, hi, rfl⟩
        · rw [hco] at h2
          simp at h2
          rcases h2 with h2 | h2
          · subst h2
            exact ⟨rfl, item, hi, rfl⟩
          · exact absurd (mem_pubEffectsOf _ _ h2) (by simp)

/-- C7 witness: concrete inserts on both paths. -/
theorem persisted_total_witness :
    Effect.dbInsert (simpleOrderOf envC7.now payloadC7) ∈
      (create_order envC7 payloadC7).2 ∧
    Effect.dbInsert (pendingOrderOf envZero.now payloadEx itemZero) ∈
      (create_validated_order envZero payloadEx).2 ∧
    (((simpleOrderOf envC7.now payloadC7).quantity = payloadC7.quantity ∧
        (simpleOrderOf envC7.now payloadC7).total_price =
          payloadC7.price_per_unit * (payloadC7.quantity : ℚ)) ∧
      ((pendingOrderOf envZero.now payloadEx itemZero).quantity =
          payloadEx.quantity ∧
        ∃ item, envZero.invResp = .ok item ∧
          (pendingOrderOf envZero.now payloadEx itemZero).total_price =
            (if item.price > 0 then item.price else fallbackPrice) *
              (payloadEx.quantity : ℚ))) := by
  have hm1 : Effect.dbInsert (simpleOrderOf envC7.now payloadC7) ∈
      (create_order envC7 payloadC7).2 := by
    simp [create_order, envC7]
  have hm2 : Effect.dbInsert (pendingOrderOf envZero.now payloadEx itemZero) ∈
      (create_validated_order envZero payloadEx).2 := by
    simp [create_validated_order, envZero, payloadEx, itemZero, pubEffectsOf]
  exact ⟨hm1, hm2,
    persisted_total_is_unit_price_times_quantity envC7 payloadC7 envZero payloadEx
      (simpleOrderOf envC7.now payloadC7)
      (pendingOrderOf envZero.now payloadEx itemZero) hm1 hm2⟩

/-- C8: a get-by-id whose id is not a 24-character hex string fails with an
InternalError mapped to status 500 (not 400) with an empty trace - the
store is never queried - and any run that did touch the store had a valid
identifier. -/
theorem malformed_id_internal_error_no_query (env : GetEnv) (id : String) :
    (validObjectId id = false →
      (get_order env id).1 =
        .failure (.InternalError ("Invalid ID: " ++ "malformed hex string")) ∧
      (AppError.into_response
          (.InternalError ("Invalid ID: " ++ "malformed hex string"))).1 = 500 ∧
      (get_order env id).2 = []) ∧
    ((get_order env id).2 ≠ [] → validObjectId id = true) := by
  by_cases h : validObjectId id = true
  · refine ⟨fun hf => ?_, fun _ => h⟩
    rw [hf] at h
    exact absurd h (by decide)
  · have h' : validObjectId id = false := by
      cases hv : validObjectId id with
      | true => exact absurd hv h
      | false => rfl
    have hg : get_order env id =
        (.failure (.InternalError ("Invalid ID: " ++ "malformed hex string")), []) := by
      simp [get_order, ObjectId.parse_str, h']
    refine ⟨fun _ => ⟨by rw [hg], rfl, by rw [hg]⟩, fun hne => ?_⟩
    rw [hg] at hne
    exact absurd rfl hne

/-- C8 witness: the malformed identifier zzz. -/
theorem malformed_id_witness :
    validObjectId "zzz" = false ∧
    ((get_order envGet "zzz").1 =
        .failure (.InternalError ("Invalid ID: " ++ "malformed hex string")) ∧
      (AppError.into_response
          (.InternalError ("Invalid ID: " ++ "malformed hex string"))).1 = 500 ∧
      (get_order envGet "zzz").2 = []) :=
  ⟨by decide, (malformed_id_internal_error_no_query envGet "zzz").1 (by decide)⟩

/-- C9: every successful create (simple or validated) returns status 201
and a body equal to some order handed to the insert - which had no
identifier - with only the identifier changed to the store-assigned one. -/
theorem create_returns_inserted_order (envS : SimpleEnv)
    (pS : CreateOrderRequestSimple) (envV : ValidatedEnv)
    (pV : CreateOrderRequest) (s1 s2 : Nat) (o1 o2 : Order)
    (h1 : (create_order envS pS).1 = .success s1 o1)
    (h2 : (create_validated_order envV pV).1 = .success s2 o2) :
    (s1 = 201 ∧ ∃ oid o, envS.insertResult = .ok oid ∧
      Effect.dbInsert o ∈ (create_order envS pS).2 ∧
      o.id = none ∧ o1 = { o with id := some oid }) ∧
    (s2 = 201 ∧ ∃ oid o, envV.insertResult = .ok oid ∧
      Effect.dbInsert o ∈ (create_validated_order envV pV).2 ∧
      o.id = none ∧ o2 = { o with id := some oid }) := by
  constructor
  · rcases create_order_enum envS pS with ⟨e, hins, hco⟩ | ⟨oid, hins, hco⟩ <;>
      rw [hco] at h1
    · simp at h1
    · simp at h1
      obtain ⟨hs, ho⟩ := h1
      subst hs
      subst ho
      exact ⟨rfl, oid, simpleOrderOf envS.now pS, hins, by rw [hco]; simp,
        rfl, rfl⟩
  · rcases create_validated_order_enum envV pV with
      ⟨e, hu, hco⟩ | ⟨hu, hco⟩ | ⟨e, hu, hco⟩ | ⟨⟨u, hu⟩, h4⟩
    · rw [hco] at h2; simp at h2
    · rw [hco] at h2; simp at h2
    · rw [hco] at h2; simp at h2
    · rcases h4 with ⟨e, hi, hco⟩ | ⟨hi, hco⟩ | ⟨e, hi, hco⟩ | ⟨item, hi, h8⟩
      · rw [hco] at h2; simp at h2
      · rw [hco] at h2; simp at h2
      · rw [hco] at h2; simp at h2
      · rcases h8 with ⟨hq, hco⟩ | ⟨hq, ⟨e, hins, hco⟩ | ⟨oid, hins, hco⟩⟩
        · rw [hco] at h2; simp at h2
        · rw [hco] at h2; simp at h2
        · rw [hco] at h2
          simp at h2
          obtain ⟨hs, ho⟩ := h2
          subst hs
          subst ho
          exact ⟨rfl, oid, pendingOrderOf envV.now pV item, hins,
            by rw [hco]; simp, rfl, rfl⟩

/-- C9 witness: concrete successful runs on both paths. -/
theorem create_returns_inserted_order_witness :
    (create_order envS payloadS).1 =
      .success 201 { simpleOrderOf envS.now payloadS with id := some oidEx } ∧
    (create_validated_order envOk payloadEx).1 =
      .success 201 (validatedOrderOf envOk payloadEx itemEx oidEx) ∧
    ((201 = 201 ∧ ∃ oid o, envS.insertResult = .ok oid ∧
        Effect.dbInsert o ∈ (create_order envS payloadS).2 ∧
        o.id = none ∧
        ({ simpleOrderOf envS.now payloadS with id := some oidEx } : Order) =
          { o with id := some oid }) ∧
      (201 = 201 ∧ ∃ oid o, envOk.insertResult = .ok oid ∧
        Effect.dbInsert o ∈ (create_validated_order envOk payloadEx).2 ∧
        o.id = none ∧
        validatedOrderOf envOk payloadEx itemEx oidEx = { o with id := some oid })) :=
  ⟨rfl, rfl,
    create_returns_inserted_order envS payloadS envOk payloadEx 201 201
      { simpleOrderOf envS.now payloadS with id := some oidEx }
      (validatedOrderOf envOk payloadEx itemEx oidEx) rfl rfl⟩

/-- C10: in both create paths the orders-created and requests-total
counters are bumped exactly once on success and never on any failure path,
the queried counter never, success requires a successful insert, the bumps
sit after the insert in the trace, and whether the request succeeds does
not depend on the publisher state. -/
theorem counters_bump_once_after_insert (envS : SimpleEnv)
    (pS : CreateOrderRequestSimple) (envV : ValidatedEnv)
    (pV : CreateOrderRequest) :
    countEff .incOrdersCreated (create_order envS pS).2 =
      (if (create_order envS pS).1.isSuccess then 1 else 0) ∧
    countEff .incRequestsTotal (create_order envS pS).2 =
      (if (create_order envS pS).1.isSuccess then 1 else 0) ∧
    countEff .incOrdersQueried (create_order envS pS).2 = 0 ∧
    ((create_order envS pS).1.isSuccess = true →
      ∃ oid, envS.insertResult = .ok oid) ∧
    ((create_order envS pS).1.isSuccess = true →
      ∃ o mid, (create_order envS pS).2 =
        [Effect.dbInsert o] ++ mid ++ [.incOrdersCreated, .incRequestsTotal]) ∧
    countEff .incOrdersCreated (create_validated_order envV pV).2 =
      (if (create_validated_order envV pV).1.isSuccess then 1 else 0) ∧
    countEff .incRequestsTotal (create_validated_order envV pV).2 =
      (if (create_validated_order envV pV).1.isSuccess then 1 else 0) ∧
    countEff .incOrdersQueried (create_validated_order envV pV).2 = 0 ∧
    ((create_validated_order envV pV).1.isSuccess = true →
      ∃ oid, envV.insertResult = .ok oid) ∧
    ((create_validated_order envV pV).1.isSuccess = true →
      ∃ o mid, (create_validated_order envV pV).2 =
        [.callUser, .callInventory, Effect.dbInsert o] ++ mid ++
          [.incOrdersCreated, .incRequestsTotal]) ∧
    (∀ b : Option Bool,
      (create_validated_order { envV with nats := b } pV).1.isSuccess =
        (create_validated_order envV pV).1.isSuccess) :=
  ⟨(create_order_counters envS pS).1,
    (create_order_counters envS pS).2.1,
    (create_order_counters envS pS).2.2.1,
    (create_order_counters envS pS).2.2.2.1,
    (create_order_counters envS pS).2.2.2.2,
    (create_validated_order_counters envV pV).1,
    (create_validated_order_counters envV pV).2.1,
    (create_validated_order_counters envV pV).2.2.1,
    (create_validated_order_counters envV pV).2.2.2.1,
    (create_validated_order_counters envV pV).2.2.2.2,
    fun b => cvo_isSuccess_nats envV pV b⟩

/-- C10 witness: a concrete successful simple create bumps both counters
after a successful insert. -/
theorem counters_bump_once_witness :
    (create_order envS payloadS).1.isSuccess = true ∧
    (∃ oid, envS.insertResult = DbResult.ok oid) ∧
    (∃ o mid, (create_order envS payloadS).2 =
      [Effect.dbInsert o] ++ mid ++ [.incOrdersCreated, .incRequestsTotal]) :=
  ⟨rfl,
    (counters_bump_once_after_insert envS payloadS envOk payloadEx).2.2.2.1 rfl,
    (counters_bump_once_after_insert envS payloadS envOk payloadEx).2.2.2.2.1 rfl⟩

end OrderService
